import Mathlib

/-!
Shallow embedding of the PesaPal payment flow of `src/index.js`
(the current revision: `app.post('/api/create-pesapal-order')` at lines
579-714, `app.get('/api/pesapal-payment-status')` at lines 716-792, and
`app.post('/api/pesapal-ipn')` at lines 795-831).

Remote HTTP calls (gateway authentication, order submission, transaction
status) are modelled by an oracle describing the response each `fetch`
would produce (`none` meaning a network failure or timeout, which in the
source rejects the `await` and lands in the `catch` block).  The Firestore
document store is modelled as an association list of documents keyed by
document id for the `pesapalOrders` collection plus an append-only list
for the `payments` collection; `DocumentReference.update` fails when the
document does not exist (Firestore NOT_FOUND, thrown to the `catch`
block), while `set` with `merge` writes the document, and
`CollectionReference.add` appends a fresh document.  `serverTimestamp()`
is modelled by a `now : Nat` parameter.  Each handler returns its HTTP
result, the resulting store, and the ordered list of remote gateway calls
it performed.
-/

set_option autoImplicit false

namespace BrandBackend

/-- The three remote PesaPal endpoints the handlers can call. -/
inductive RemoteCall where
  | authRequest
  | submitOrderRequest
  | getTransactionStatus
deriving DecidableEq, Repr

/-- Body of a `POST /api/Auth/RequestToken` response, as read by the code
(`authData.token`). -/
structure AuthBody where
  token : Option String
deriving DecidableEq, Repr

/-- Body of a `POST /api/Transactions/SubmitOrderRequest` response, as read
by the code (`orderResult.redirect_url`; the tracking id the gateway also
returns is never read by the source). -/
structure SubmitBody where
  order_tracking_id : Option String
  redirect_url : Option String
deriving DecidableEq, Repr

/-- Body of a `GET /api/Transactions/GetTransactionStatus` response, as read
by the code (`statusData.payment_status`). -/
structure StatusBody where
  payment_status : Option String
deriving DecidableEq, Repr

/-- An HTTP response as the handlers observe it: `ok` and `status` from the
fetch Response, `bodyText` for the `response.text()` read on error paths,
and the parsed JSON body. -/
structure HttpResp (B : Type) where
  ok : Bool
  status : Nat
  bodyText : String
  body : B
deriving DecidableEq, Repr

/-- A document of the `pesapalOrders` collection, with exactly the fields
the `orderRef.set` call of the create handler writes, plus the fields the
two update sites (`status`/`updatedAt` in the poll handler,
`status`/`ipnReceivedAt` in the IPN handler) can add. -/
structure OrderDoc where
  orderId : String
  amount : Int
  currency : String
  planId : Option String
  planName : Option String
  customerEmail : String
  customerName : Option String
  status : String
  createdAt : Nat
  redirectUrl : String
  updatedAt : Option Nat
  ipnReceivedAt : Option Nat
deriving DecidableEq, Repr

/-- A document of the `payments` collection, with exactly the fields the
IPN handler's `db.collection('payments').add` writes. -/
structure PaymentRecord where
  userId : String
  email : String
  planId : Option String
  planName : Option String
  amount : Int
  currency : String
  paymentMethod : String
  createdAt : Nat
  status : String
  orderId : String
deriving DecidableEq, Repr

/-- The Firestore state the PesaPal handlers touch: the `pesapalOrders`
collection (documents keyed by document id) and the `payments` collection
(append-only, auto-generated ids). -/
structure Store where
  pesapalOrders : List (String × OrderDoc)
  payments : List PaymentRecord
deriving DecidableEq, Repr

/-- The empty store. -/
def Store.empty : Store := ⟨[], []⟩

/-- Read a `pesapalOrders` document (`orderRef.get()` / `doc.data()`). -/
def Store.getOrder (s : Store) (id : String) : Option OrderDoc :=
  (s.pesapalOrders.find? (fun p => p.1 == id)).map Prod.snd

/-- `orderRef.set(data, { merge: true })`: write the document, replacing an
existing one with the same id or inserting a fresh one. -/
def Store.setOrder (s : Store) (id : String) (d : OrderDoc) : Store :=
  if (s.pesapalOrders.find? (fun p => p.1 == id)).isSome then
    { s with pesapalOrders :=
        (s.pesapalOrders.map (fun p => if p.1 == id then (p.1, d) else p)) }
  else
    { s with pesapalOrders := s.pesapalOrders ++ [(id, d)] }

/-- `orderRef.update(fields)`: patch an existing document with `f`, or fail
(Firestore NOT_FOUND, surfacing as a thrown error in the source) when no
document with this id exists — `update`, unlike `set`, never creates. -/
def Store.updateOrder (s : Store) (id : String) (f : OrderDoc → OrderDoc) :
    Option Store :=
  match s.getOrder id with
  | none => none
  | some _ => some { s with pesapalOrders :=
      (s.pesapalOrders.map (fun p => if p.1 == id then (p.1, f p.2) else p)) }

/-- `db.collection('payments').add(record)`: append a fresh document. -/
def Store.addPayment (s : Store) (r : PaymentRecord) : Store :=
  { s with payments := s.payments ++ [r] }

/-- JavaScript falsiness of a possibly-absent number (`!amount`): absent or
zero. -/
def falsyInt : Option Int → Bool
  | none => true
  | some n => n == 0

/-- JavaScript falsiness of a possibly-absent string (`!currency` etc.):
absent or empty. -/
def falsyStr : Option String → Bool
  | none => true
  | some s => s == ""

/-- `x || null` on an optional string field (`planId: planId || null`). -/
def orNull (o : Option String) : Option String :=
  if falsyStr o then none else o

/-- Result of a handler invocation: the HTTP response sent, the store after
the invocation, and the remote gateway calls made, in order. -/
structure Outcome (R : Type) where
  result : R
  store : Store
  calls : List RemoteCall
deriving DecidableEq, Repr

/-! ## POST /api/create-pesapal-order (src/index.js lines 579-714) -/

/-- The destructured request body of the create handler. -/
structure CreateOrderReq where
  amount : Option Int
  currency : Option String
  planId : Option String
  planName : Option String
  customerEmail : Option String
  customerName : Option String
deriving DecidableEq, Repr

/-- The environment and remote world one create invocation runs against:
whether the PesaPal credential pair is configured (otherwise
`getPesaPalAuthHeader` throws before any fetch), and the responses the two
fetches would observe (`none` = network failure / 25s abort). -/
structure CreateWorld where
  credsConfigured : Bool
  authResp : Option (HttpResp AuthBody)
  orderResp : Option (HttpResp SubmitBody)
deriving DecidableEq, Repr

/-- The HTTP responses the create handler can send. -/
inductive CreateResult where
  | badRequest (message : String)
  | serverError (message : String)
  | ok (iframeUrl : String) (orderId : String)
deriving DecidableEq, Repr

/-- `app.post('/api/create-pesapal-order')`, lines 579-714 of
`src/index.js`.  Validation (`!amount || !currency || !customerEmail` →
400) runs before anything else; then `getPesaPalAuthHeader()` (throws when
the credential pair is missing), the auth fetch (throws on network error;
`!authResponse.ok` → throw; `!authData.token` → throw), the order
submission fetch (network error or `!orderResponse.ok` → throw;
`!orderResult.redirect_url` → throw), then the single `orderRef.set` write
of the document with `status: 'PENDING'`, then the success response.
Every thrown error is caught and answered with a 500. -/
def createPesapalOrder (req : CreateOrderReq) (orderId : String) (now : Nat)
    (w : CreateWorld) (s : Store) : Outcome CreateResult :=
  if falsyInt req.amount || falsyStr req.currency || falsyStr req.customerEmail then
    ⟨.badRequest "Missing required fields", s, []⟩
  else if !w.credsConfigured then
    ⟨.serverError "PesaPal credentials not configured", s, []⟩
  else
    match w.authResp with
    | none => ⟨.serverError "fetch failed", s, [.authRequest]⟩
    | some ar =>
      if !ar.ok then
        ⟨.serverError ("PesaPal auth failed: " ++ toString ar.status ++ " - " ++ ar.bodyText),
          s, [.authRequest]⟩
      else if falsyStr ar.body.token then
        ⟨.serverError "PesaPal did not return an access token", s, [.authRequest]⟩
      else
        match w.orderResp with
        | none => ⟨.serverError "fetch failed", s, [.authRequest, .submitOrderRequest]⟩
        | some orr =>
          if !orr.ok then
            ⟨.serverError ("PesaPal order submission failed: " ++ toString orr.status
                ++ " - " ++ orr.bodyText),
              s, [.authRequest, .submitOrderRequest]⟩
          else if falsyStr orr.body.redirect_url then
            ⟨.serverError "PesaPal did not return a redirect URL",
              s, [.authRequest, .submitOrderRequest]⟩
          else
            let rurl := (orr.body.redirect_url).getD ""
            let doc : OrderDoc :=
              { orderId := orderId
                amount := req.amount.getD 0
                currency := req.currency.getD ""
                planId := orNull req.planId
                planName := orNull req.planName
                customerEmail := req.customerEmail.getD ""
                customerName := orNull req.customerName
                status := "PENDING"
                createdAt := now
                redirectUrl := rurl
                updatedAt := none
                ipnReceivedAt := none }
            ⟨.ok rurl orderId, s.setOrder orderId doc, [.authRequest, .submitOrderRequest]⟩

/-! ## GET /api/pesapal-payment-status (src/index.js lines 716-792) -/

/-- The environment and remote world one status-poll invocation runs
against. -/
structure StatusWorld where
  credsConfigured : Bool
  authResp : Option (HttpResp AuthBody)
  statusResp : Option (HttpResp StatusBody)
deriving DecidableEq, Repr

/-- The HTTP responses the status-poll handler can send; `ok` carries
`statusData.payment_status` (echoed as `status`) and the raw body (echoed
as `details`). -/
inductive StatusResult where
  | badRequest (message : String)
  | serverError (message : String)
  | ok (paymentStatus : Option String) (details : StatusBody)
deriving DecidableEq, Repr

/-- `app.get('/api/pesapal-payment-status')`, lines 716-792 of
`src/index.js`.  `orderId` missing → 400; then the same auth sequence as
the create handler, then the status fetch; when the response carries a
truthy `payment_status` the handler runs `orderRef.update` on the document
keyed by the caller-supplied `orderId` (throwing NOT_FOUND → 500 when it
does not exist); a falsy `payment_status` skips the write.  No payment
record is ever created here. -/
def pesapalPaymentStatus (orderId : Option String) (now : Nat)
    (w : StatusWorld) (s : Store) : Outcome StatusResult :=
  match orderId with
  | none => ⟨.badRequest "orderId is required", s, []⟩
  | some oid =>
    if !w.credsConfigured then
      ⟨.serverError "PesaPal credentials not configured", s, []⟩
    else
      match w.authResp with
      | none => ⟨.serverError "fetch failed", s, [.authRequest]⟩
      | some ar =>
        if !ar.ok then
          ⟨.serverError ("PesaPal auth failed: " ++ toString ar.status ++ " - " ++ ar.bodyText),
            s, [.authRequest]⟩
        else if falsyStr ar.body.token then
          ⟨.serverError "PesaPal did not return an access token", s, [.authRequest]⟩
        else
          match w.statusResp with
          | none => ⟨.serverError "fetch failed", s, [.authRequest, .getTransactionStatus]⟩
          | some sr =>
            if !sr.ok then
              ⟨.serverError ("Status check failed: " ++ toString sr.status
                  ++ " - " ++ sr.bodyText),
                s, [.authRequest, .getTransactionStatus]⟩
            else if falsyStr sr.body.payment_status then
              ⟨.ok sr.body.payment_status sr.body, s, [.authRequest, .getTransactionStatus]⟩
            else
              match s.updateOrder oid
                  (fun d => { d with status := (sr.body.payment_status).getD ""
                                     updatedAt := some now }) with
              | none =>
                ⟨.serverError "store update failed", s, [.authRequest, .getTransactionStatus]⟩
              | some s1 =>
                ⟨.ok sr.body.payment_status sr.body, s1,
                  [.authRequest, .getTransactionStatus]⟩

/-! ## POST /api/pesapal-ipn (src/index.js lines 795-831) -/

/-- The two HTTP responses the IPN handler can send:
`res.status(200).send('OK')` or `res.status(500).send('Error processing
IPN')`. -/
inductive IpnResult where
  | ok200
  | error500
deriving DecidableEq, Repr

/-- The HTTP status code of an IPN response. -/
def IpnResult.statusCode : IpnResult → Nat
  | .ok200 => 200
  | .error500 => 500

/-- `app.post('/api/pesapal-ipn')`, lines 795-831 of `src/index.js`.  The
handler runs `orderRef.update({ status: payment_status, ipnReceivedAt })`
on the document keyed by `order_tracking_id`, unconditionally — there is
no check of the previously stored status.  When the document does not
exist the update throws NOT_FOUND, caught as a 500, and nothing is
written.  When `payment_status === 'COMPLETED'` the handler then reads the
document back and appends a record to the `payments` collection with
`db.collection('payments').add` — on every such delivery, with no check
for an already-existing record.  The embedding covers deliveries whose
body carries both fields. -/
def pesapalIpn (order_tracking_id : String) (payment_status : String)
    (now : Nat) (s : Store) : Outcome IpnResult :=
  match s.updateOrder order_tracking_id
      (fun d => { d with status := payment_status, ipnReceivedAt := some now }) with
  | none => ⟨.error500, s, []⟩
  | some s1 =>
    if payment_status == "COMPLETED" then
      match s1.getOrder order_tracking_id with
      | none => ⟨.error500, s1, []⟩
      | some d =>
        let payRec : PaymentRecord :=
          { userId := ""
            email := d.customerEmail
            planId := d.planId
            planName := d.planName
            amount := d.amount
            currency := d.currency
            paymentMethod := "pesapal"
            createdAt := now
            status := "completed"
            orderId := order_tracking_id }
        ⟨.ok200, s1.addPayment payRec, []⟩
    else ⟨.ok200, s1, []⟩

/-- The terminal statuses named by the state machine of the specification. -/
def terminalStatuses : List String := ["COMPLETED", "FAILED", "INVALID"]

/-- Deliver the identical IPN payload `n` times in a row, threading the
store. -/
def replayIpn : Nat → String → String → Nat → Store → Store
  | 0, _, _, _, s => s
  | n + 1, tid, ps, now, s => replayIpn n tid ps now (pesapalIpn tid ps now s).store

/-! ## Concrete fixtures used by the claim theorems -/

/-- A stored order in the non-terminal `PENDING` state, filed (as the IPN
handler expects to find it) under the gateway tracking id `T-1`. -/
def orderPendingT1 : OrderDoc :=
  { orderId := "BRANDIFY-100-1"
    amount := 1000
    currency := "KES"
    planId := some "pro"
    planName := some "Pro"
    customerEmail := "a@b.com"
    customerName := some "Alice N"
    status := "PENDING"
    createdAt := 1
    redirectUrl := "https://pay.example/redirect"
    updatedAt := none
    ipnReceivedAt := none }

/-- The same order after it reached the terminal `COMPLETED` status. -/
def orderCompletedT1 : OrderDoc := { orderPendingT1 with status := "COMPLETED" }

/-- A store holding only the pending order under document id `T-1`. -/
def storePendingT1 : Store := ⟨[("T-1", orderPendingT1)], []⟩

/-- A store holding only the completed order under document id `T-1`. -/
def storeCompletedT1 : Store := ⟨[("T-1", orderCompletedT1)], []⟩

/-- A successful authentication response carrying a token. -/
def authOk : HttpResp AuthBody := ⟨true, 200, "", ⟨some "tok-1"⟩⟩

/-- A successful order-submission response carrying a tracking id and a
redirect URL. -/
def submitOkT1 : HttpResp SubmitBody :=
  ⟨true, 200, "", ⟨some "T-1", some "https://pay.example/redirect"⟩⟩

/-- A world in which both gateway calls of order creation succeed. -/
def goodCreateWorld : CreateWorld := ⟨true, some authOk, some submitOkT1⟩

/-- A poll world in which the gateway reports `COMPLETED`. -/
def statusCompletedWorld : StatusWorld :=
  ⟨true, some authOk, some ⟨true, 200, "", ⟨some "COMPLETED"⟩⟩⟩

/-- A poll world in which the gateway reports `FAILED`. -/
def statusFailedWorld : StatusWorld :=
  ⟨true, some authOk, some ⟨true, 200, "", ⟨some "FAILED"⟩⟩⟩

/-- The well-formed create request of the end-to-end scenario. -/
def reqKes1000 : CreateOrderReq :=
  ⟨some 1000, some "KES", some "pro", some "Pro", some "a@b.com", some "Alice N"⟩

/-! ## Claim theorems -/

/-- Claim C1: the specification asserts that once an order holds a terminal
status (`COMPLETED`, `FAILED`, `INVALID`), no further status update — from
the IPN handler or the poll endpoint — ever changes it, a conflicting
value being rejected as an `InconsistentStatus` anomaly.  The code has no
such guard: on an order stored as `COMPLETED`, an IPN delivery carrying
`FAILED` overwrites the stored status with `FAILED` and is acknowledged
with 200 OK, and the poll endpoint likewise overwrites it when the
gateway reports `FAILED`. -/
theorem c1_terminal_status_overwritten :
    ("COMPLETED" ∈ terminalStatuses ∧ "FAILED" ∈ terminalStatuses) ∧
    ((pesapalIpn "T-1" "FAILED" 5 storeCompletedT1).store.getOrder "T-1").map OrderDoc.status
        = some "FAILED" ∧
    (pesapalIpn "T-1" "FAILED" 5 storeCompletedT1).result = .ok200 ∧
    ((pesapalPaymentStatus (some "T-1") 6 statusFailedWorld storeCompletedT1).store.getOrder
        "T-1").map OrderDoc.status = some "FAILED" := by
  decide

/-- Claim C2: the specification asserts that delivering the identical
`COMPLETED` callback N times creates exactly one Payment Record.  The code
appends a fresh `payments` document on every `COMPLETED` delivery
(`db.collection('payments').add`, with no check for an existing record):
five identical deliveries create five records. -/
theorem c2_five_deliveries_five_records :
    ((replayIpn 5 "T-1" "COMPLETED" 7 storePendingT1).payments.filter
        (fun r => r.orderId == "T-1")).length = 5 ∧ (5 : Nat) ≠ 1 := by
  decide

/-- Claim C5 counterexample: for a callback whose tracking id matches no
stored order, the claim asserts a not-found signal is returned to the
transport layer.  The code instead answers with the generic 500
`Error processing IPN` response (the store NOT_FOUND failure lands in the
catch-all), not a not-found response. -/
theorem c5_unknown_tracking_id_returns_500 :
    Store.empty.getOrder "T-404" = none ∧
    (pesapalIpn "T-404" "COMPLETED" 3 Store.empty).result.statusCode = 500 ∧
    (pesapalIpn "T-404" "COMPLETED" 3 Store.empty).result.statusCode ≠ 404 := by
  decide

/-- Claim C5 (amended): for every callback delivery whose tracking id
matches no stored order, the handler answers with the 500
`Error processing IPN` response (the store NOT_FOUND error surfaced
through the catch-all, not a distinct not-found signal), performs no write
to the store, and never fabricates an order from the callback data. -/
theorem c5_unknown_tracking_id_writes_nothing (s : Store) (tid ps : String) (now : Nat)
    (h : s.getOrder tid = none) :
    (pesapalIpn tid ps now s).result = .error500 ∧ (pesapalIpn tid ps now s).store = s := by
  unfold pesapalIpn Store.updateOrder
  rw [h]
  exact ⟨rfl, rfl⟩

/-- Claim C5 witness: the amended statement at the concrete unknown
tracking id `T-404` against the empty store. -/
theorem c5_unknown_tracking_id_writes_nothing_witness :
    Store.empty.getOrder "T-404" = none ∧
    ((pesapalIpn "T-404" "COMPLETED" 3 Store.empty).result = .error500 ∧
      (pesapalIpn "T-404" "COMPLETED" 3 Store.empty).store = Store.empty) :=
  ⟨by decide, c5_unknown_tracking_id_writes_nothing Store.empty "T-404" "COMPLETED" 3 (by decide)⟩

/-- The store and result of the end-to-end order creation of the scenario in
claim C6 (`amount=1000, currency="KES", customerEmail="a@b.com"`,
submission returning tracking id `T-1` and a redirect URL). -/
def createOutC6 : Outcome CreateResult :=
  createPesapalOrder reqKes1000 "BRANDIFY-100-1" 1 goodCreateWorld Store.empty

/-- The outcome of the follow-up poll of the scenario in claim C6, in which
the gateway reports `COMPLETED`. -/
def pollOutC6 : Outcome StatusResult :=
  pesapalPaymentStatus (some "BRANDIFY-100-1") 2 statusCompletedWorld createOutC6.store

/-- Claim C6 counterexample: in the end-to-end scenario the claim asserts
the order is first stored with status `CREATED` and that after the
`COMPLETED` poll exactly one Payment Record with the caller-generated id
exists.  The code writes the order exactly once, directly with status
`PENDING`, and the poll path never creates a Payment Record: after the
`COMPLETED` poll the `payments` collection holds zero records. -/
theorem c6_counterexample :
    ((createOutC6.store.getOrder "BRANDIFY-100-1").map OrderDoc.status = some "PENDING" ∧
      "PENDING" ≠ "CREATED") ∧
    (pollOutC6.store.getOrder "BRANDIFY-100-1").map OrderDoc.status = some "COMPLETED" ∧
    ((pollOutC6.store.payments.filter (fun r => r.orderId == "BRANDIFY-100-1")).length = 0 ∧
      (0 : Nat) ≠ 1) := by
  decide

/-- Claim C6 (amended): in the end-to-end flow, creating the order
(`amount=1000, currency="KES", customerEmail="a@b.com"`) stores it exactly
once, directly with status `PENDING`, after the gateway submission
returned the redirect URL (there is no intermediate `CREATED` write, and
the gateway tracking id of the submission response is not stored); after a
poll keyed by the caller-generated id reports `COMPLETED`, the stored
status becomes `COMPLETED`; no Payment Record is created anywhere in this
flow — only the IPN path creates payment records. -/
theorem c6_end_to_end_actual :
    createOutC6.result = .ok "https://pay.example/redirect" "BRANDIFY-100-1" ∧
    (createOutC6.store.getOrder "BRANDIFY-100-1").map OrderDoc.status = some "PENDING" ∧
    pollOutC6.result = .ok (some "COMPLETED") ⟨some "COMPLETED"⟩ ∧
    (pollOutC6.store.getOrder "BRANDIFY-100-1").map OrderDoc.status = some "COMPLETED" ∧
    createOutC6.store.payments = [] ∧ pollOutC6.store.payments = [] := by
  decide

/-- One invocation of the create handler: its request, generated order id,
timestamp, remote world and starting store. -/
structure CreateRun where
  req : CreateOrderReq
  orderId : String
  now : Nat
  world : CreateWorld
  store : Store

/-- A create-handler invocation passes validation and finds the credential
pair configured, so it reaches the token-acquisition step. -/
def CreateRun.reachesAuth (r : CreateRun) : Prop :=
  (falsyInt r.req.amount || falsyStr r.req.currency || falsyStr r.req.customerEmail) = false ∧
  r.world.credsConfigured = true

instance (r : CreateRun) : Decidable r.reachesAuth := by
  unfold CreateRun.reachesAuth; infer_instance

/-- The concatenated remote-call trace of a sequence of create-handler
invocations. -/
def runsCalls (runs : List CreateRun) : List RemoteCall :=
  (runs.map (fun r => (createPesapalOrder r.req r.orderId r.now r.world r.store).calls)).flatten

/-- Every create-handler invocation that reaches the token-acquisition step
performs exactly one remote authentication call, whatever the store and the
rest of the world look like: the handler holds no token state. -/
lemma createPesapalOrder_authCount (req : CreateOrderReq) (oid : String) (now : Nat)
    (w : CreateWorld) (s : Store)
    (hval : (falsyInt req.amount || falsyStr req.currency || falsyStr req.customerEmail) = false)
    (hcreds : w.credsConfigured = true) :
    (createPesapalOrder req oid now w s).calls.count RemoteCall.authRequest = 1 := by
  obtain ⟨creds, aresp, oresp⟩ := w
  simp only at hcreds
  subst hcreds
  cases aresp with
  | none => simp [createPesapalOrder, hval]
  | some ar =>
    cases oresp with
    | none =>
      by_cases h1 : ar.ok
      · by_cases h2 : falsyStr ar.body.token
        · simp [createPesapalOrder, hval, h1, h2]
        · simp [createPesapalOrder, hval, h1, h2]
      · simp [createPesapalOrder, hval, h1]
    | some orr =>
      by_cases h1 : ar.ok
      · by_cases h2 : falsyStr ar.body.token
        · simp [createPesapalOrder, hval, h1, h2]
        · by_cases h3 : orr.ok
          · by_cases h4 : falsyStr orr.body.redirect_url
            · simp [createPesapalOrder, hval, h1, h2, h3, h4]
            · simp [createPesapalOrder, hval, h1, h2, h3, h4]
          · simp [createPesapalOrder, hval, h1, h2, h3]
      · simp [createPesapalOrder, hval, h1]

/-- Claim C3 counterexample: the claim asserts that N concurrent token
acquisitions against an empty cache issue exactly one remote
authentication call.  Two create-handler invocations (each reaching the
acquisition step) issue two authentication calls, not one: there is no
cache and no in-flight sharing in the code. -/
theorem c3_counterexample :
    (runsCalls
        [⟨reqKes1000, "BRANDIFY-1", 1, goodCreateWorld, Store.empty⟩,
         ⟨reqKes1000, "BRANDIFY-2", 2, goodCreateWorld, Store.empty⟩]).count
      RemoteCall.authRequest = 2 ∧ (2 : Nat) ≠ 1 := by
  decide

/-- Claim C3 (amended): every create-handler invocation that reaches the
token-acquisition step issues its own remote authentication call — the
code holds no token cache and no in-flight refresh that callers could
share — so N such invocations issue N authentication calls, for any N and
any interleaving (the handlers share no token state whose timing could
matter). -/
theorem c3_each_acquisition_issues_own_auth_call (runs : List CreateRun)
    (h : ∀ r ∈ runs, r.reachesAuth) :
    (runsCalls runs).count RemoteCall.authRequest = runs.length := by
  induction runs with
  | nil => rfl
  | cons r rs ih =>
    have hr := h r (List.mem_cons_self r rs)
    have hrs : ∀ x ∈ rs, x.reachesAuth := fun x hx => h x (List.mem_cons_of_mem r hx)
    simp only [runsCalls, List.map_cons, List.flatten_cons, List.count_append, List.length_cons]
    rw [createPesapalOrder_authCount r.req r.orderId r.now r.world r.store hr.1 hr.2]
    have := ih hrs
    simp only [runsCalls] at this
    omega

/-- Claim C3 witness: the amended statement at a concrete pair of
invocations. -/
theorem c3_each_acquisition_issues_own_auth_call_witness :
    (∀ r ∈ ([⟨reqKes1000, "BRANDIFY-1", 1, goodCreateWorld, Store.empty⟩,
             ⟨reqKes1000, "BRANDIFY-3", 3, goodCreateWorld, Store.empty⟩] : List CreateRun),
      r.reachesAuth) ∧
    (runsCalls
        [⟨reqKes1000, "BRANDIFY-1", 1, goodCreateWorld, Store.empty⟩,
         ⟨reqKes1000, "BRANDIFY-3", 3, goodCreateWorld, Store.empty⟩]).count
      RemoteCall.authRequest
      = ([⟨reqKes1000, "BRANDIFY-1", 1, goodCreateWorld, Store.empty⟩,
          ⟨reqKes1000, "BRANDIFY-3", 3, goodCreateWorld, Store.empty⟩] : List CreateRun).length :=
  ⟨by decide, c3_each_acquisition_issues_own_auth_call _ (by decide)⟩

/-- Claim C4 counterexample: the claim asserts that an acquisition
performed while a previously issued, far-from-expiry token exists returns
the cached token without a remote call.  Immediately after an invocation
that obtained a fresh token, a second invocation still performs a remote
authentication call (the code stores no token and never reads the expiry
the gateway reports). -/
theorem c4_counterexample :
    (createPesapalOrder reqKes1000 "BRANDIFY-2" 2 goodCreateWorld
        (createPesapalOrder reqKes1000 "BRANDIFY-1" 1 goodCreateWorld Store.empty).store).calls.count
      RemoteCall.authRequest = 1 ∧ (1 : Nat) ≠ 0 := by
  decide

/-- Claim C4 (amended): the code maintains no token cache and never reads
the token expiry: every create-handler invocation that reaches the
token-acquisition step performs exactly one remote authentication call,
whatever tokens earlier invocations obtained and whatever the store
holds. -/
theorem c4_no_cached_token_is_ever_reused (req : CreateOrderReq) (oid : String) (now : Nat)
    (w : CreateWorld) (s : Store)
    (hval : (falsyInt req.amount || falsyStr req.currency || falsyStr req.customerEmail) = false)
    (hcreds : w.credsConfigured = true) :
    (createPesapalOrder req oid now w s).calls.count RemoteCall.authRequest = 1 :=
  createPesapalOrder_authCount req oid now w s hval hcreds

/-- Claim C4 witness: the amended statement for an invocation run right
after a prior invocation obtained a fresh token. -/
theorem c4_no_cached_token_is_ever_reused_witness :
    ((falsyInt reqKes1000.amount || falsyStr reqKes1000.currency
        || falsyStr reqKes1000.customerEmail) = false ∧
      goodCreateWorld.credsConfigured = true) ∧
    (createPesapalOrder reqKes1000 "BRANDIFY-4" 4 goodCreateWorld
        (createPesapalOrder reqKes1000 "BRANDIFY-1" 1 goodCreateWorld Store.empty).store).calls.count
      RemoteCall.authRequest = 1 :=
  ⟨⟨by decide, by decide⟩,
    c4_no_cached_token_is_ever_reused reqKes1000 "BRANDIFY-4" 4 goodCreateWorld
      (createPesapalOrder reqKes1000 "BRANDIFY-1" 1 goodCreateWorld Store.empty).store
      (by decide) (by decide)⟩

/-- Claim C7: for every order submission whose HTTP response is successful
but lacks the `redirect_url` field, the create handler throws
`PesaPal did not return a redirect URL`, caught and surfaced as a 500
server error; the store is left unchanged and no success response is
returned (so no success ever carries an absent redirect URL). -/
theorem c7_missing_redirect_surfaces_server_error (req : CreateOrderReq) (oid : String)
    (now : Nat) (s : Store) (ar : HttpResp AuthBody) (orr : HttpResp SubmitBody)
    (hval : (falsyInt req.amount || falsyStr req.currency || falsyStr req.customerEmail) = false)
    (hok : ar.ok = true) (htok : falsyStr ar.body.token = false)
    (hook : orr.ok = true) (hred : orr.body.redirect_url = none) :
    (createPesapalOrder req oid now ⟨true, some ar, some orr⟩ s).result
        = .serverError "PesaPal did not return a redirect URL" ∧
    (createPesapalOrder req oid now ⟨true, some ar, some orr⟩ s).store = s ∧
    ∀ u o, (createPesapalOrder req oid now ⟨true, some ar, some orr⟩ s).result ≠ .ok u o := by
  have hred' : falsyStr orr.body.redirect_url = true := by rw [hred]; rfl
  refine ⟨?_, ?_, ?_⟩ <;>
    simp [createPesapalOrder, hval, hok, htok, hook, hred']

/-- Claim C7 witness: the statement at a concrete submission response that
is HTTP-successful but carries no redirect URL. -/
theorem c7_missing_redirect_surfaces_server_error_witness :
    ((falsyInt reqKes1000.amount || falsyStr reqKes1000.currency
        || falsyStr reqKes1000.customerEmail) = false ∧
      authOk.ok = true ∧ falsyStr authOk.body.token = false ∧
      (⟨true, 200, "", ⟨some "T-1", none⟩⟩ : HttpResp SubmitBody).ok = true ∧
      (⟨true, 200, "", ⟨some "T-1", none⟩⟩ : HttpResp SubmitBody).body.redirect_url = none) ∧
    ((createPesapalOrder reqKes1000 "BRANDIFY-7" 1
          ⟨true, some authOk, some ⟨true, 200, "", ⟨some "T-1", none⟩⟩⟩ Store.empty).result
        = .serverError "PesaPal did not return a redirect URL" ∧
      (createPesapalOrder reqKes1000 "BRANDIFY-7" 1
          ⟨true, some authOk, some ⟨true, 200, "", ⟨some "T-1", none⟩⟩⟩ Store.empty).store
        = Store.empty ∧
      ∀ u o,
        (createPesapalOrder reqKes1000 "BRANDIFY-7" 1
            ⟨true, some authOk, some ⟨true, 200, "", ⟨some "T-1", none⟩⟩⟩ Store.empty).result
          ≠ .ok u o) :=
  ⟨⟨by decide, by decide, by decide, by decide, by decide⟩,
    c7_missing_redirect_surfaces_server_error reqKes1000 "BRANDIFY-7" 1 Store.empty authOk
      ⟨true, 200, "", ⟨some "T-1", none⟩⟩ (by decide) (by decide) (by decide) (by decide)
      (by decide)⟩

/-- Claim C8 counterexample: the claim asserts that a 401 response makes the
client signal `TokenRejected` distinctly and that the caller refreshes the
token and retries exactly once (two submission attempts).  On a concrete
401 submission response the handler makes exactly one submission call and
one authentication call — no refresh, no retry — and answers with the
same generic 500 error shape used for every gateway rejection. -/
theorem c8_counterexample :
    (createPesapalOrder reqKes1000 "BRANDIFY-8" 1
        ⟨true, some authOk, some ⟨false, 401, "unauthorized", ⟨none, none⟩⟩⟩
        Store.empty).calls.count RemoteCall.submitOrderRequest = 1 ∧ (1 : Nat) ≠ 2 ∧
    (createPesapalOrder reqKes1000 "BRANDIFY-8" 1
        ⟨true, some authOk, some ⟨false, 401, "unauthorized", ⟨none, none⟩⟩⟩
        Store.empty).calls.count RemoteCall.authRequest = 1 ∧
    (createPesapalOrder reqKes1000 "BRANDIFY-8" 1
        ⟨true, some authOk, some ⟨false, 401, "unauthorized", ⟨none, none⟩⟩⟩
        Store.empty).result
      = .serverError "PesaPal order submission failed: 401 - unauthorized" := by
  refine ⟨by decide, by decide, by decide, ?_⟩
  rfl

/-- Claim C8 (amended): on a 401-equivalent submission response the create
handler throws the generic
`PesaPal order submission failed: <status> - <body>` error, surfaced as a
500 server error with no distinct `TokenRejected` signal; it performs no
token refresh and no retry: the remote-call trace is exactly one
authentication call followed by one submission call, and the store is
unchanged. -/
theorem c8_401_generic_error_no_retry (req : CreateOrderReq) (oid : String) (now : Nat)
    (s : Store) (ar : HttpResp AuthBody) (orr : HttpResp SubmitBody)
    (hval : (falsyInt req.amount || falsyStr req.currency || falsyStr req.customerEmail) = false)
    (hok : ar.ok = true) (htok : falsyStr ar.body.token = false)
    (hnok : orr.ok = false) (h401 : orr.status = 401) :
    (createPesapalOrder req oid now ⟨true, some ar, some orr⟩ s).result
        = .serverError ("PesaPal order submission failed: " ++ toString orr.status
            ++ " - " ++ orr.bodyText) ∧
    (createPesapalOrder req oid now ⟨true, some ar, some orr⟩ s).calls
        = [RemoteCall.authRequest, RemoteCall.submitOrderRequest] ∧
    (createPesapalOrder req oid now ⟨true, some ar, some orr⟩ s).store = s := by
  refine ⟨?_, ?_, ?_⟩ <;>
    simp [createPesapalOrder, hval, hok, htok, hnok, h401]

/-- Claim C8 witness: the amended statement at a concrete 401 submission
response. -/
theorem c8_401_generic_error_no_retry_witness :
    ((falsyInt reqKes1000.amount || falsyStr reqKes1000.currency
        || falsyStr reqKes1000.customerEmail) = false ∧
      authOk.ok = true ∧ falsyStr authOk.body.token = false ∧
      (⟨false, 401, "token expired", ⟨none, none⟩⟩ : HttpResp SubmitBody).ok = false ∧
      (⟨false, 401, "token expired", ⟨none, none⟩⟩ : HttpResp SubmitBody).status = 401) ∧
    ((createPesapalOrder reqKes1000 "BRANDIFY-81" 1
          ⟨true, some authOk, some ⟨false, 401, "token expired", ⟨none, none⟩⟩⟩
          Store.empty).result
        = .serverError ("PesaPal order submission failed: "
            ++ toString (⟨false, 401, "token expired", ⟨none, none⟩⟩ : HttpResp SubmitBody).status
            ++ " - "
            ++ (⟨false, 401, "token expired", ⟨none, none⟩⟩ : HttpResp SubmitBody).bodyText) ∧
      (createPesapalOrder reqKes1000 "BRANDIFY-81" 1
          ⟨true, some authOk, some ⟨false, 401, "token expired", ⟨none, none⟩⟩⟩
          Store.empty).calls
        = [RemoteCall.authRequest, RemoteCall.submitOrderRequest] ∧
      (createPesapalOrder reqKes1000 "BRANDIFY-81" 1
          ⟨true, some authOk, some ⟨false, 401, "token expired", ⟨none, none⟩⟩⟩
          Store.empty).store = Store.empty) :=
  ⟨⟨by decide, by decide, by decide, by decide, by decide⟩,
    c8_401_generic_error_no_retry reqKes1000 "BRANDIFY-81" 1 Store.empty authOk
      ⟨false, 401, "token expired", ⟨none, none⟩⟩ (by decide) (by decide) (by decide)
      (by decide) (by decide)⟩

/-- Claim C9 counterexample: the claim requires a request violating
`amount > 0` to be rejected with a client error before any gateway call.
A request with `amount = -5` passes the `!amount` check (only absent or
zero amounts are falsy): the handler proceeds to the remote
authentication call and, the gateway responding normally, answers with a
success — no 4xx rejection happens. -/
theorem c9_counterexample :
    ¬((-5 : Int) > 0) ∧
    (createPesapalOrder ⟨some (-5), some "KES", some "pro", some "Pro", some "a@b.com",
        some "Alice N"⟩ "BRANDIFY-9" 1 goodCreateWorld Store.empty).calls.count
      RemoteCall.authRequest = 1 ∧
    (createPesapalOrder ⟨some (-5), some "KES", some "pro", some "Pro", some "a@b.com",
        some "Alice N"⟩ "BRANDIFY-9" 1 goodCreateWorld Store.empty).result
      = .ok "https://pay.example/redirect" "BRANDIFY-9" := by
  decide

/-- Claim C9 (amended): every order-creation request whose `amount` is
absent or zero, whose `currency` is absent or empty, or whose
`customerEmail` is absent or empty is rejected with the 400
`Missing required fields` client error before any gateway call
(authentication or submission) and with no store write; strict positivity
of the amount is not checked, so a negative amount is not rejected. -/
theorem c9_falsy_fields_rejected_before_any_gateway_call (req : CreateOrderReq) (oid : String)
    (now : Nat) (w : CreateWorld) (s : Store)
    (h : (falsyInt req.amount || falsyStr req.currency || falsyStr req.customerEmail) = true) :
    createPesapalOrder req oid now w s
      = ⟨.badRequest "Missing required fields", s, []⟩ := by
  simp [createPesapalOrder, h]

/-- Claim C9 witness: the amended statement at a concrete request with no
amount. -/
theorem c9_falsy_fields_rejected_before_any_gateway_call_witness :
    (falsyInt (⟨none, some "KES", none, none, some "a@b.com", none⟩ : CreateOrderReq).amount
        || falsyStr (⟨none, some "KES", none, none, some "a@b.com", none⟩ : CreateOrderReq).currency
        || falsyStr (⟨none, some "KES", none, none, some "a@b.com",
            none⟩ : CreateOrderReq).customerEmail) = true ∧
    createPesapalOrder ⟨none, some "KES", none, none, some "a@b.com", none⟩ "BRANDIFY-91" 1
        goodCreateWorld Store.empty
      = ⟨.badRequest "Missing required fields", Store.empty, []⟩ :=
  ⟨by decide,
    c9_falsy_fields_rejected_before_any_gateway_call
      ⟨none, some "KES", none, none, some "a@b.com", none⟩ "BRANDIFY-91" 1 goodCreateWorld
      Store.empty (by decide)⟩

/-- Whether a create-handler response is the 500 server error. -/
def CreateResult.isServerError : CreateResult → Bool
  | .serverError _ => true
  | _ => false

/-- A remote world in which some step between validation and the store
write fails: the authentication fetch fails or is not OK, the token is
missing from the auth body, the submission fetch fails or is not OK, or
the submission body lacks a truthy `redirect_url`. -/
def preStoreFailure (w : CreateWorld) : Bool :=
  match w.authResp with
  | none => true
  | some ar => !ar.ok || falsyStr ar.body.token ||
      (match w.orderResp with
       | none => true
       | some orr => !orr.ok || falsyStr orr.body.redirect_url)

/-- Claim C10: for every order-creation request that passes validation, if
any step before the store write fails — authentication fetch failure or
non-OK auth response, missing token in the auth body, submission fetch
failure or non-OK submission response, or a submission body lacking
`redirect_url` — the handler answers with a 500 server error and writes
nothing: the store is unchanged on every such error path. -/
theorem c10_error_paths_return_500_and_write_nothing (req : CreateOrderReq) (oid : String)
    (now : Nat) (w : CreateWorld) (s : Store)
    (hval : (falsyInt req.amount || falsyStr req.currency || falsyStr req.customerEmail) = false)
    (hcreds : w.credsConfigured = true) (hf : preStoreFailure w = true) :
    (createPesapalOrder req oid now w s).result.isServerError = true ∧
    (createPesapalOrder req oid now w s).store = s := by
  obtain ⟨creds, aresp, oresp⟩ := w
  simp only at hcreds
  subst hcreds
  cases aresp with
  | none =>
    refine ⟨?_, ?_⟩ <;> simp [createPesapalOrder, hval, CreateResult.isServerError]
  | some ar =>
    cases h1 : ar.ok with
    | false =>
      refine ⟨?_, ?_⟩ <;> simp [createPesapalOrder, hval, h1, CreateResult.isServerError]
    | true =>
      cases h2 : falsyStr ar.body.token with
      | true =>
        refine ⟨?_, ?_⟩ <;> simp [createPesapalOrder, hval, h1, h2, CreateResult.isServerError]
      | false =>
        cases oresp with
        | none =>
          refine ⟨?_, ?_⟩ <;> simp [createPesapalOrder, hval, h1, h2, CreateResult.isServerError]
        | some orr =>
          cases h3 : orr.ok with
          | false =>
            refine ⟨?_, ?_⟩ <;>
              simp [createPesapalOrder, hval, h1, h2, h3, CreateResult.isServerError]
          | true =>
            cases h4 : falsyStr orr.body.redirect_url with
            | true =>
              refine ⟨?_, ?_⟩ <;>
                simp [createPesapalOrder, hval, h1, h2, h3, h4, CreateResult.isServerError]
            | false =>
              exfalso
              simp [preStoreFailure, h1, h2, h3, h4] at hf

/-- Claim C10 witness: the statement at a concrete world whose
authentication fetch fails (network failure). -/
theorem c10_error_paths_return_500_and_write_nothing_witness :
    ((falsyInt reqKes1000.amount || falsyStr reqKes1000.currency
        || falsyStr reqKes1000.customerEmail) = false ∧
      (⟨true, none, none⟩ : CreateWorld).credsConfigured = true ∧
      preStoreFailure ⟨true, none, none⟩ = true) ∧
    ((createPesapalOrder reqKes1000 "BRANDIFY-10" 1 ⟨true, none, none⟩
          storePendingT1).result.isServerError = true ∧
      (createPesapalOrder reqKes1000 "BRANDIFY-10" 1 ⟨true, none, none⟩
          storePendingT1).store = storePendingT1) :=
  ⟨⟨by decide, by decide, by decide⟩,
    c10_error_paths_return_500_and_write_nothing reqKes1000 "BRANDIFY-10" 1 ⟨true, none, none⟩
      storePendingT1 (by decide) (by decide) (by decide)⟩

end BrandBackend
